import Mathlib

/-!
Shallow embedding of the ingestion-and-scoring pipeline of the
`ai-anomaly-detector` repository, and proofs about it.

Embedded source files:
* `src/ml/simple_anomaly_detector.py` — `SimpleAnomalyDetector`
  (`create_user_profiles`, `detect_rule_based_anomalies`, `analyze_event`);
* `src/data/connectors/base_connector.py` — `BaseConnector.standardize_event`;
* `src/data/connectors/linux_auth_connector.py` — `fetch_events`, `parse_event`;
* `src/data/connectors/web_log_connector.py` — `fetch_events`, `parse_event`.

Modelling conventions:
* A Python dict event is a structure whose fields are `Option`-valued; `none`
  models both an absent key and a key bound to `None` (the two are
  indistinguishable through `dict.get`, which is how the code reads them).
* Python floats `0.4, 0.6, 0.2, 1.0, 13, 30, 100, 50` are modelled as `ℚ`
  (`2/5`, `3/5`, `1/5`, …).  For every violation count `n`, the IEEE-double
  comparisons `n*0.4 >= 0.6` / `>= 0.4` / `>= 0.2` and the clamp
  `min(1.0, n*0.4)` decide exactly as their rational counterparts (the only
  boundary case, `1*0.4 >= 0.4`, holds in both), so the `ℚ` model and the
  Python code classify identically.
* The `datetime`/`pandas` timestamp parser is external library code, passed in
  as a parameter `parseHour : String → Except String Nat` returning the parsed
  hour or the exception text; likewise the `re` regex engine is passed in as
  match functions returning the captured groups.  The control flow around
  these parameters is translated from the source.
* `datetime.now()` is passed in as an explicit `now : String` parameter.
-/

/-- A Python dict event, as consumed by `SimpleAnomalyDetector` and produced
by connectors: each documented field is `Option`-valued, `none` standing for
an absent key or a `None` value. -/
structure Event where
  timestamp : Option String := none
  user_id : Option Int := none
  user_name : Option String := none
  event_type : Option String := none
  source_ip : Option String := none
  location : Option String := none
  country : Option String := none
  device : Option String := none
  success : Option Bool := none
  file_name : Option String := none
  file_size_mb : Option ℚ := none
  action : Option String := none
  details : Option (List (String × String)) := none
  deriving DecidableEq, Repr

/-- The `normal_login_hours` sub-dict of a user profile
(`simple_anomaly_detector.py`, lines 38-42). -/
structure NormalLoginHours where
  min : Int
  max : Int
  avg : ℚ
  deriving DecidableEq, Repr

/-- The `typical_file_sizes` sub-dict of a user profile
(`simple_anomaly_detector.py`, lines 46-49). -/
structure TypicalFileSizes where
  avg : ℚ
  max : ℚ
  deriving DecidableEq, Repr

/-- A user behavioural profile as built by `create_user_profiles`
(`simple_anomaly_detector.py`, lines 35-50). -/
structure UserProfile where
  user_id : Int
  name : String
  normal_login_hours : NormalLoginHours
  normal_countries : List String
  normal_locations : List String
  avg_files_per_day : ℚ
  typical_file_sizes : TypicalFileSizes
  deriving DecidableEq, Repr

/-- `self.suspicious_countries` (`simple_anomaly_detector.py`, line 18). -/
def suspicious_countries : List String :=
  ["Russia", "China", "North Korea", "Unknown"]

/-- The hard-coded trusted-location allowlist in the unusual-location rule
(`simple_anomaly_detector.py`, line 106). -/
def trusted_locations : List String :=
  ["New York", "California", "Texas", "Florida", "Illinois"]

/-- The sensitive-filename keyword list (`simple_anomaly_detector.py`,
line 131). -/
def sensitive_keywords : List String :=
  ["database", "customer", "entire", "backup", ".sql"]

/-- Python's `pat in s` substring test: `pat` occurs in `s` exactly when
splitting `s` on `pat` yields at least two parts (for nonempty `pat`). -/
def strIn (pat s : String) : Bool :=
  2 ≤ (s.splitOn pat).length

/-- Python's `s.startswith(pre)`. -/
def strStartsWith (s pre : String) : Bool :=
  pre.data.isPrefixOf s.data

/-- `SimpleAnomalyDetector.detect_rule_based_anomalies`
(`simple_anomaly_detector.py`, lines 70-134).  `parseHour` stands for the
`datetime`/`pandas` timestamp parsing on lines 83-88, returning the parsed
hour or the raised exception's text; a missing `timestamp` key models the
`KeyError` of `event['timestamp']`.  Either failure is caught by the handler
on lines 114-115, which appends the single error anomaly (the checks after
the parse never run in that case). -/
def detect_rule_based_anomalies (parseHour : String → Except String Nat)
    (user_profiles : List (Int × UserProfile)) (event : Event) : List String :=
  match event.user_id with
  | none => ["Unknown user"]
  | some uid =>
    match List.lookup uid user_profiles with
    | none => ["Unknown user"]
    | some profile =>
      let loginAnoms : List String :=
        if event.event_type = some "login" then
          match event.timestamp with
          | none => ["Error parsing timestamp: \x27timestamp\x27"]
          | some ts =>
            match parseHour ts with
            | Except.error e => ["Error parsing timestamp: " ++ e]
            | Except.ok hour =>
              let normal_start := profile.normal_login_hours.min
              let normal_end := profile.normal_login_hours.max
              let timeAnoms : List String :=
                if hour < 6 ∨ 22 < hour then
                  ["Very unusual login time: " ++ toString hour ++ ":00"]
                else if (hour : Int) < normal_start - 1 ∨
                    normal_end + 1 < (hour : Int) then
                  ["Outside normal hours: " ++ toString hour ++ ":00 (normal: "
                    ++ toString normal_start ++ "-" ++ toString normal_end ++ ")"]
                else []
              let country := event.country.getD "Unknown"
              let countryAnoms : List String :=
                if country ∈ suspicious_countries then
                  ["Login from suspicious country: " ++ country]
                else []
              let location := event.location.getD "Unknown"
              let locationAnoms : List String :=
                if location ∉ profile.normal_locations ∧
                    location ∉ trusted_locations then
                  ["Login from unusual location: " ++ location]
                else []
              let source_ip := event.source_ip.getD ""
              let ipAnoms : List String :=
                if ¬ strStartsWith source_ip "192.168.1." then
                  ["Login from external IP: " ++ source_ip]
                else []
              timeAnoms ++ countryAnoms ++ locationAnoms ++ ipAnoms
        else []
      let fileAnoms : List String :=
        if event.event_type = some "file_access" then
          let file_size := event.file_size_mb.getD 0
          let largeAnoms : List String :=
            if 100 < file_size then
              ["Large file access: " ++ toString file_size ++ "MB"]
            else []
          let downloadAnoms : List String :=
            if event.action = some "download" ∧ 50 < file_size then
              ["File download: " ++ toString file_size ++ "MB"]
            else []
          let file_name := event.file_name.getD ""
          let sensitiveAnoms : List String :=
            if sensitive_keywords.any (fun w => strIn w file_name.toLower) then
              ["Sensitive file access: " ++ file_name]
            else []
          largeAnoms ++ downloadAnoms ++ sensitiveAnoms
        else []
      loginAnoms ++ fileAnoms

/-- The result dict of `SimpleAnomalyDetector.analyze_event`
(`simple_anomaly_detector.py`, lines 155-162). -/
structure AnalysisResult where
  event : Event
  anomalies : List String
  overall_risk_score : ℚ
  alert_level : String
  is_suspicious : Bool
  timestamp_analyzed : String
  deriving DecidableEq, Repr

/-- `SimpleAnomalyDetector.analyze_event` (`simple_anomaly_detector.py`,
lines 136-162).  `now` is the `datetime.now().isoformat()` string taken at
analysis time (line 161). -/
def analyze_event (parseHour : String → Except String Nat)
    (user_profiles : List (Int × UserProfile)) (now : String)
    (event : Event) : AnalysisResult :=
  let rule_anomalies := detect_rule_based_anomalies parseHour user_profiles event
  let rule_score : ℚ := (rule_anomalies.length : ℚ) * (2/5)
  let overall_score : ℚ := min 1 rule_score
  let alert_level : String :=
    if 3/5 ≤ overall_score then "HIGH"
    else if 2/5 ≤ overall_score then "MEDIUM"
    else if 1/5 ≤ overall_score then "LOW"
    else "NORMAL"
  { event := event
    anomalies := rule_anomalies
    overall_risk_score := overall_score
    alert_level := alert_level
    is_suspicious := decide ((2/5 : ℚ) ≤ overall_score)
    timestamp_analyzed := now }

/-- The on-disk state of one monitored log file: its byte content.
`os.path.getsize` is the length of this content. -/
structure LogFile where
  content : List Char
  deriving DecidableEq, Repr

/-- `_get_file_size` (`linux_auth_connector.py` lines 37-42,
`web_log_connector.py` lines 46-51) on an accessible file. -/
def file_size (f : LogFile) : Nat :=
  f.content.length

/-- Python's `str.strip()`: drop whitespace from both ends. -/
def pyStrip (s : String) : String :=
  let ws : Char → Bool := fun c =>
    c == ' ' || c == '\t' || c == '\x0a' || c == '\x0d' || c == '\x0b' || c == '\x0c'
  String.mk (((s.data.dropWhile ws).reverse.dropWhile ws).reverse)

/-- Python's `file.readlines()` on the given characters: split after every
newline, keeping the newline with its line; a final segment without a
trailing newline is still a line, and no empty final line is produced. -/
def readlines : List Char → List Char → List String
  | acc, [] => if acc = [] then [] else [String.mk acc.reverse]
  | acc, c :: cs =>
    if c = '\x0a' then String.mk (c :: acc).reverse :: readlines [] cs
    else readlines (c :: acc) cs

/-- One `fetch_events` step for a single monitored file, shared verbatim by
`LinuxAuthConnector.fetch_events` (`linux_auth_connector.py` lines 44-62) and
`WebLogConnector.fetch_events` (`web_log_connector.py` lines 53-71): if the
current size exceeds the stored offset, seek to the offset, read and yield
the stripped remaining lines, and advance the stored offset to the current
size; otherwise yield nothing and leave the offset unchanged.  Returns the
yielded lines and the updated stored offset. -/
def fetch_events (f : LogFile) (last_position : Nat) : List String × Nat :=
  if last_position < file_size f then
    ((readlines [] (f.content.drop last_position)).map pyStrip, file_size f)
  else
    ([], last_position)

/-- The dict returned by `BaseConnector.standardize_event`
(`base_connector.py`, lines 71-87): every documented key is present; the
keys read with a `dict.get` default are non-optional here, the ones read
with plain `dict.get` stay `Option`-valued (`none` models Python `None`). -/
structure StandardEvent where
  timestamp : String
  user_id : Option Int
  user_name : Option String
  event_type : Option String
  source_ip : Option String
  location : String
  country : String
  device : Option String
  success : Bool
  file_name : Option String
  file_size_mb : Option ℚ
  action : Option String
  details : List (String × String)
  source : String
  deriving DecidableEq, Repr

/-- `BaseConnector.standardize_event` (`base_connector.py`, lines 71-87).
`source` is `self.__class__.__name__` and `now` the
`datetime.now().isoformat()` fallback of line 73. -/
def standardize_event (source now : String) (event_data : Event) : StandardEvent :=
  { timestamp := event_data.timestamp.getD now
    user_id := event_data.user_id
    user_name := event_data.user_name
    event_type := event_data.event_type
    source_ip := event_data.source_ip
    location := event_data.location.getD "Unknown"
    country := event_data.country.getD "Unknown"
    device := event_data.device
    success := event_data.success.getD true
    file_name := event_data.file_name
    file_size_mb := event_data.file_size_mb
    action := event_data.action
    details := event_data.details.getD []
    source := source }

/-- `LinuxAuthConnector.parse_event` (`linux_auth_connector.py`,
lines 64-113).  The three `re.search` calls against the fixed SSH-accepted,
SSH-failed and sudo patterns are passed in as functions returning the three
captured groups, and `_parse_timestamp` (total: it falls back to now on
failure) as `parseTimestamp`; the pattern cascade and the event assembly are
translated from the source.  A record matching no pattern falls through to
`return None`. -/
def linux_parse_event
    (searchSshLogin searchSshFailed searchSudo :
      String → Option (String × String × String))
    (parseTimestamp : String → String) (now : String)
    (raw_event : String) : Option StandardEvent :=
  match searchSshLogin raw_event with
  | some (timestamp_str, username, source_ip) =>
    some (standardize_event "LinuxAuthConnector" now
      { timestamp := some (parseTimestamp timestamp_str)
        user_name := some username
        event_type := some "login"
        source_ip := some source_ip
        success := some true
        details := some [("method", "ssh"), ("raw", raw_event)] })
  | none =>
  match searchSshFailed raw_event with
  | some (timestamp_str, username, source_ip) =>
    some (standardize_event "LinuxAuthConnector" now
      { timestamp := some (parseTimestamp timestamp_str)
        user_name := some username
        event_type := some "login"
        source_ip := some source_ip
        success := some false
        details := some [("method", "ssh"), ("raw", raw_event)] })
  | none =>
  match searchSudo raw_event with
  | some (timestamp_str, username, command) =>
    some (standardize_event "LinuxAuthConnector" now
      { timestamp := some (parseTimestamp timestamp_str)
        user_name := some username
        event_type := some "command"
        action := some "sudo"
        details := some [("command", pyStrip command), ("raw", raw_event)] })
  | none => none

/-- The nine groups captured by `WebLogConnector.log_pattern`
(`web_log_connector.py`, lines 26-28, 80). -/
structure WebLogMatch where
  ip : String
  timestamp_str : String
  method : String
  url : String
  protocol : String
  status_code : String
  size : String
  referer : String
  user_agent : String
  deriving DecidableEq, Repr

/-- `WebLogConnector._is_static_file` (`web_log_connector.py`,
lines 112-115). -/
def is_static_file (url : String) : Bool :=
  [".css", ".js", ".jpg", ".png", ".gif", ".ico", ".svg", ".woff"].any
    (fun ext => url.toLower.endsWith ext)

/-- `WebLogConnector._is_bot` (`web_log_connector.py`, lines 117-120). -/
def is_bot (user_agent : String) : Bool :=
  ["bot", "crawler", "spider", "scraper"].any
    (fun ind => strIn ind user_agent.toLower)

/-- `WebLogConnector._determine_event_type` (`web_log_connector.py`,
lines 122-137).  Python operator precedence puts
`'download' in url or method == 'GET' and 'file' in url` as
`download ∨ (GET ∧ file)`. -/
def determine_event_type (method url status_code : String) : Option String :=
  let url_lower := url.toLower
  if strIn "login" url_lower || strIn "signin" url_lower then some "login"
  else if strIn "logout" url_lower || strIn "signout" url_lower then some "logout"
  else if strIn "download" url_lower ||
      (method == "GET" && strIn "file" url_lower) then some "file_access"
  else if method == "POST" && status_code.toNat?.getD 0 == 200 then
    some "application_use"
  else if method == "GET" && status_code.toNat?.getD 0 == 200 then
    some "page_view"
  else none

/-- `WebLogConnector._extract_user_from_url` (`web_log_connector.py`,
lines 139-154).  `searchUserPatterns` stands for the `re.search` loop over
the four fixed user patterns, returning the first captured group of the
first pattern that matches. -/
def extract_user_from_url (searchUserPatterns : String → Option String)
    (url : String) : String :=
  (searchUserPatterns url).getD "unknown"

/-- `WebLogConnector.parse_event` (`web_log_connector.py`, lines 73-110).
`matchLogPattern` stands for `self.log_pattern.match`, returning the nine
captured groups, and `parseTimestamp` for `_parse_timestamp` (total).  The
regex guarantees `status_code` is three digits, so `int(status_code)` is its
numeric value. -/
def web_parse_event (matchLogPattern : String → Option WebLogMatch)
    (searchUserPatterns : String → Option String)
    (parseTimestamp : String → String) (now : String)
    (raw_event : String) : Option StandardEvent :=
  match matchLogPattern raw_event with
  | none => none
  | some m =>
    if is_static_file m.url || is_bot m.user_agent then none
    else
      match determine_event_type m.method m.url m.status_code with
      | none => none
      | some event_type =>
        some (standardize_event "WebLogConnector" now
          { timestamp := some (parseTimestamp m.timestamp_str)
            user_name := some (extract_user_from_url searchUserPatterns m.url)
            event_type := some event_type
            source_ip := some m.ip
            success := some (decide (m.status_code.toNat?.getD 0 < 400))
            details := some [("method", m.method), ("url", m.url),
              ("status_code", m.status_code), ("user_agent", m.user_agent),
              ("size", m.size), ("raw", raw_event)] })

/-- One row of the training DataFrame as used by `create_user_profiles`
(`simple_anomaly_detector.py`, lines 20-54): `hour` is
`pd.to_datetime(timestamp).dt.hour`. -/
structure DataRow where
  user_id : Int
  user_name : String
  hour : Nat
  event_type : String
  country : String
  location : String
  file_size_mb : ℚ
  deriving DecidableEq, Repr

/-- The training DataFrame: its rows, plus which of the optional columns are
present (pandas `'col' in frame` tests column presence, uniformly for all
rows). -/
structure DataFrame where
  rows : List DataRow
  has_user_name : Bool := true
  has_country : Bool := true
  has_location : Bool := true
  has_file_size_mb : Bool := true
  deriving DecidableEq, Repr

/-- `pandas.unique`: distinct values in order of first appearance. -/
def pdUnique {α : Type} [DecidableEq α] (l : List α) : List α :=
  l.foldl (fun acc x => if x ∈ acc then acc else acc ++ [x]) []

/-- `.min()` of a nonempty numeric column. -/
def colMin : List Nat → Nat
  | [] => 0
  | x :: xs => xs.foldl Nat.min x

/-- `.max()` of a nonempty numeric column. -/
def colMax : List Nat → Nat
  | [] => 0
  | x :: xs => xs.foldl Nat.max x

/-- `.mean()` of a numeric column. -/
def colMean (l : List ℚ) : ℚ :=
  l.sum / (l.length : ℚ)

/-- `.max()` of a nonempty rational column. -/
def colMaxQ : List ℚ → ℚ
  | [] => 0
  | x :: xs => xs.foldl max x

/-- The loop body of `create_user_profiles` (`simple_anomaly_detector.py`,
lines 25-52): filter one user's rows, split them into login and file-access
rows, and build the profile dict with the documented defaults when a split
or a column is empty. -/
def build_profile (df : DataFrame) (uid : Int) : UserProfile :=
  let user_data := df.rows.filter (fun r => r.user_id = uid)
  let login_data := user_data.filter (fun r => r.event_type = "login")
  let file_data := user_data.filter (fun r => r.event_type = "file_access")
  { user_id := uid
    name :=
      if df.has_user_name then
        (user_data.head?.map (fun r => r.user_name)).getD ""
      else "User " ++ toString uid
    normal_login_hours :=
      { min := if 0 < login_data.length then
          (colMin (login_data.map (fun r => r.hour)) : Int) else 9
        max := if 0 < login_data.length then
          (colMax (login_data.map (fun r => r.hour)) : Int) else 17
        avg := if 0 < login_data.length then
          colMean (login_data.map (fun r => (r.hour : ℚ))) else 13 }
    normal_countries :=
      if df.has_country then pdUnique (user_data.map (fun r => r.country))
      else ["United States"]
    normal_locations :=
      if df.has_location then pdUnique (user_data.map (fun r => r.location))
      else ["Unknown"]
    avg_files_per_day :=
      if 0 < file_data.length then (file_data.length : ℚ) / 30 else 0
    typical_file_sizes :=
      { avg := if 0 < file_data.length ∧ df.has_file_size_mb then
          colMean (file_data.map (fun r => r.file_size_mb)) else 0
        max := if 0 < file_data.length ∧ df.has_file_size_mb then
          colMaxQ (file_data.map (fun r => r.file_size_mb)) else 0 } }

/-- `SimpleAnomalyDetector.create_user_profiles`
(`simple_anomaly_detector.py`, lines 20-54): one profile per distinct
`user_id` of the training batch, in order of first appearance. -/
def create_user_profiles (df : DataFrame) : List (Int × UserProfile) :=
  (pdUnique (df.rows.map (fun r => r.user_id))).map
    (fun uid => (uid, build_profile df uid))

/-- The elif-chain of `analyze_event` (lines 146-153) characterised by
threshold intervals. -/
lemma alert_chain_spec (s : ℚ) :
    (((if 3/5 ≤ s then "HIGH" else if 2/5 ≤ s then "MEDIUM"
        else if 1/5 ≤ s then "LOW" else "NORMAL") = "HIGH") ↔ 3/5 ≤ s) ∧
    (((if 3/5 ≤ s then "HIGH" else if 2/5 ≤ s then "MEDIUM"
        else if 1/5 ≤ s then "LOW" else "NORMAL") = "MEDIUM") ↔
      2/5 ≤ s ∧ s < 3/5) ∧
    (((if 3/5 ≤ s then "HIGH" else if 2/5 ≤ s then "MEDIUM"
        else if 1/5 ≤ s then "LOW" else "NORMAL") = "LOW") ↔
      1/5 ≤ s ∧ s < 2/5) ∧
    (((if 3/5 ≤ s then "HIGH" else if 2/5 ≤ s then "MEDIUM"
        else if 1/5 ≤ s then "LOW" else "NORMAL") = "NORMAL") ↔ s < 1/5) := by
  split_ifs with h1 h2 h3 <;>
    refine ⟨?_, ?_, ?_, ?_⟩ <;> simp_all <;>
    first
      | linarith
      | (intro hx; linarith)

/-- C1: the risk score returned by `analyze_event` is
`min(1.0, violation_count * 0.4)`; the alert level is HIGH iff the score is
at least 0.6, MEDIUM iff in [0.4, 0.6), LOW iff in [0.2, 0.4), NORMAL
otherwise; `is_suspicious` holds iff the score is at least 0.4; the score is
always in [0, 1] and monotonically non-decreasing in the violation count. -/
theorem analyze_event_scoring
    (parseHour : String → Except String Nat)
    (user_profiles : List (Int × UserProfile)) (now : String) (event : Event)
    (r : AnalysisResult)
    (hr : r = analyze_event parseHour user_profiles now event) :
    r.anomalies = detect_rule_based_anomalies parseHour user_profiles event ∧
    r.overall_risk_score = min 1 ((r.anomalies.length : ℚ) * (2/5)) ∧
    ((r.alert_level = "HIGH") ↔ 3/5 ≤ r.overall_risk_score) ∧
    ((r.alert_level = "MEDIUM") ↔
      2/5 ≤ r.overall_risk_score ∧ r.overall_risk_score < 3/5) ∧
    ((r.alert_level = "LOW") ↔
      1/5 ≤ r.overall_risk_score ∧ r.overall_risk_score < 2/5) ∧
    ((r.alert_level = "NORMAL") ↔ r.overall_risk_score < 1/5) ∧
    (r.is_suspicious = true ↔ 2/5 ≤ r.overall_risk_score) ∧
    0 ≤ r.overall_risk_score ∧ r.overall_risk_score ≤ 1 ∧
    ∀ m n : ℕ, m ≤ n →
      min 1 ((m : ℚ) * (2/5)) ≤ min 1 ((n : ℚ) * (2/5)) := by
  subst hr
  dsimp only [analyze_event]
  obtain ⟨hH, hM, hL, hN⟩ :=
    alert_chain_spec
      (min 1 (((detect_rule_based_anomalies parseHour user_profiles
        event).length : ℚ) * (2/5)))
  refine ⟨rfl, rfl, hH, hM, hL, hN, ?_, ?_, min_le_left _ _, ?_⟩
  · simp [decide_eq_true_eq]
  · exact le_min (by norm_num) (by positivity)
  · intro m n h
    exact min_le_min le_rfl
      (mul_le_mul_of_nonneg_right (by exact_mod_cast h) (by norm_num))

/-- C1 witness: the scoring equations at a concrete event (no profile for
the user, hence one violation). -/
theorem analyze_event_scoring_witness :
    (analyze_event (fun _ => Except.error "x") [] "t" {}).anomalies =
      detect_rule_based_anomalies (fun _ => Except.error "x") [] {} ∧
    (analyze_event (fun _ => Except.error "x") [] "t" {}).overall_risk_score =
      min 1 (((analyze_event (fun _ => Except.error "x") []
        "t" {}).anomalies.length : ℚ) * (2/5)) :=
  ⟨(analyze_event_scoring (fun _ => Except.error "x") [] "t" {} _ rfl).1,
    (analyze_event_scoring (fun _ => Except.error "x") [] "t" {} _ rfl).2.1⟩

/-- C2 counterexample: a file of size 2 with stored offset 5 (truncated below
the offset).  The next `fetch_events` call leaves the stored offset at 5 —
past end-of-file — and does not reset it to 0, refuting the claimed
truncation detection. -/
theorem fetch_events_truncation_counterexample :
    file_size ⟨['a', 'b']⟩ < 5 ∧
    fetch_events ⟨['a', 'b']⟩ 5 = ([], 5) ∧
    (fetch_events ⟨['a', 'b']⟩ 5).2 ≠ 0 := by
  decide

/-- C2 amended: if the file's size shrinks below the stored offset, the next
`fetch_events` call yields no records and leaves the stored offset unchanged
(past end-of-file); the code performs no truncation detection and never
resets the offset to 0. -/
theorem fetch_events_truncation_keeps_offset (f : LogFile) (p : Nat)
    (h : file_size f < p) :
    fetch_events f p = ([], p) := by
  simp only [fetch_events, if_neg (by omega : ¬ p < file_size f)]

/-- C2 amended witness: the truncated file of size 2 with offset 5. -/
theorem fetch_events_truncation_keeps_offset_witness :
    file_size ⟨['a', 'b']⟩ < 5 ∧ fetch_events ⟨['a', 'b']⟩ 5 = ([], 5) :=
  ⟨by decide, fetch_events_truncation_keeps_offset ⟨['a', 'b']⟩ 5 (by decide)⟩

/-- C3 counterexample: two `analyze_event` calls with identical event and
identical profile table but made at different wall-clock times yield
different `AnalysisResult` records (they differ in `timestamp_analyzed`),
refuting equality "in every field". -/
theorem analyze_event_now_counterexample :
    analyze_event (fun _ => Except.error "invalid") [] "2024-01-01T00:00:00" {} ≠
    analyze_event (fun _ => Except.error "invalid") [] "2024-01-01T00:00:01" {} := by
  intro h
  have h2 := congrArg AnalysisResult.timestamp_analyzed h
  simp [analyze_event] at h2

/-- C3 amended: `analyze_event` is pure up to the `timestamp_analyzed`
field, which records the wall-clock analysis time: with identical event and
identical profile table, two calls agree on `event`, `anomalies`,
`overall_risk_score`, `alert_level` and `is_suspicious`. -/
theorem analyze_event_pure_modulo_timestamp
    (parseHour : String → Except String Nat)
    (user_profiles : List (Int × UserProfile)) (now1 now2 : String)
    (event : Event) :
    (analyze_event parseHour user_profiles now1 event).event =
      (analyze_event parseHour user_profiles now2 event).event ∧
    (analyze_event parseHour user_profiles now1 event).anomalies =
      (analyze_event parseHour user_profiles now2 event).anomalies ∧
    (analyze_event parseHour user_profiles now1 event).overall_risk_score =
      (analyze_event parseHour user_profiles now2 event).overall_risk_score ∧
    (analyze_event parseHour user_profiles now1 event).alert_level =
      (analyze_event parseHour user_profiles now2 event).alert_level ∧
    (analyze_event parseHour user_profiles now1 event).is_suspicious =
      (analyze_event parseHour user_profiles now2 event).is_suspicious :=
  ⟨rfl, rfl, rfl, rfl, rfl⟩

/-- C6: a `fetch_events` call that consumes the delta advances the stored
offset to the current size, and an immediately following call with the file
unchanged yields no records and leaves the offset fixed. -/
theorem fetch_events_no_duplicates (f : LogFile) (p : Nat) :
    (p < file_size f → (fetch_events f p).2 = file_size f) ∧
    fetch_events f (fetch_events f p).2 = ([], (fetch_events f p).2) := by
  by_cases h : p < file_size f
  · simp [fetch_events, h]
  · simp [fetch_events, h]

/-- C6 witness: a one-byte file read from offset 0, then re-read with no
intervening change. -/
theorem fetch_events_no_duplicates_witness :
    (fetch_events ⟨['a']⟩ 0).2 = file_size ⟨['a']⟩ ∧
    fetch_events ⟨['a']⟩ (fetch_events ⟨['a']⟩ 0).2 =
      ([], (fetch_events ⟨['a']⟩ 0).2) :=
  ⟨(fetch_events_no_duplicates ⟨['a']⟩ 0).1 (by decide),
    (fetch_events_no_duplicates ⟨['a']⟩ 0).2⟩

/-- C4 counterexample: normalizing a record that supplies nothing.  The
`user_name`, `source_ip` and `device` keys are present but bound to `None`,
not to the claimed "unknown"/"Unknown" string sentinels. -/
theorem standardize_event_none_counterexample :
    (standardize_event "LinuxAuthConnector" "2024-01-01T00:00:00" {}).user_name
      = none ∧
    (standardize_event "LinuxAuthConnector" "2024-01-01T00:00:00" {}).source_ip
      = none ∧
    (standardize_event "LinuxAuthConnector" "2024-01-01T00:00:00" {}).device
      = none ∧
    (standardize_event "LinuxAuthConnector" "2024-01-01T00:00:00" {}).user_name
      ≠ some "unknown" ∧
    (standardize_event "LinuxAuthConnector" "2024-01-01T00:00:00" {}).source_ip
      ≠ some "Unknown" ∧
    (standardize_event "LinuxAuthConnector" "2024-01-01T00:00:00" {}).device
      ≠ some "Unknown" := by
  decide

/-- C4 amended: `standardize_event` always returns a record with every
documented key present; each default is per-field — `location` defaults to
"Unknown" when the source did not supply it, independently of the other
fields, and likewise `country` to "Unknown", `success` to `True` and
`timestamp` to the synthetic now value — while `user_name`, `source_ip` and
`device` are passed through unchanged unconditionally, so an unavailable
one is present with the `None` sentinel, not a string sentinel. -/
theorem standardize_event_defaults (source now : String)
    (event_data : Event) :
    (event_data.location = none →
      (standardize_event source now event_data).location = "Unknown") ∧
    (event_data.country = none →
      (standardize_event source now event_data).country = "Unknown") ∧
    (event_data.success = none →
      (standardize_event source now event_data).success = true) ∧
    (event_data.timestamp = none →
      (standardize_event source now event_data).timestamp = now) ∧
    (standardize_event source now event_data).user_name =
      event_data.user_name ∧
    (standardize_event source now event_data).source_ip =
      event_data.source_ip ∧
    (standardize_event source now event_data).device = event_data.device ∧
    (standardize_event source now event_data).source = source := by
  refine ⟨fun hl => ?_, fun hc => ?_, fun hs => ?_, fun ht => ?_,
    rfl, rfl, rfl, rfl⟩
  · simp [standardize_event, hl]
  · simp [standardize_event, hc]
  · simp [standardize_event, hs]
  · simp [standardize_event, ht]

/-- C4 amended witness: the empty record (all four defaults fire), and an
SSH-style record that supplies `timestamp`, `success`, `user_name` and
`source_ip` but no `country` or `location` (those two still default while
the supplied fields pass through). -/
theorem standardize_event_defaults_witness :
    (standardize_event "LinuxAuthConnector" "2024-01-01T00:00:00" {}).location
      = "Unknown" ∧
    (standardize_event "LinuxAuthConnector" "2024-01-01T00:00:00" {}).country
      = "Unknown" ∧
    (standardize_event "LinuxAuthConnector" "2024-01-01T00:00:00" {}).success
      = true ∧
    (standardize_event "LinuxAuthConnector" "2024-01-01T00:00:00" {}).timestamp
      = "2024-01-01T00:00:00" ∧
    (standardize_event "LinuxAuthConnector" "2024-01-01T00:00:00"
      { timestamp := some "2024-01-01T03:00:00", user_name := some "alice",
        event_type := some "login", source_ip := some "203.0.113.45",
        success := some true }).country = "Unknown" ∧
    (standardize_event "LinuxAuthConnector" "2024-01-01T00:00:00"
      { timestamp := some "2024-01-01T03:00:00", user_name := some "alice",
        event_type := some "login", source_ip := some "203.0.113.45",
        success := some true }).location = "Unknown" ∧
    (standardize_event "LinuxAuthConnector" "2024-01-01T00:00:00"
      { timestamp := some "2024-01-01T03:00:00", user_name := some "alice",
        event_type := some "login", source_ip := some "203.0.113.45",
        success := some true }).user_name = some "alice" := by
  obtain ⟨h1, h2, h3, h4, _⟩ :=
    standardize_event_defaults "LinuxAuthConnector" "2024-01-01T00:00:00" {}
  obtain ⟨g1, g2, _, _, g5, _⟩ :=
    standardize_event_defaults "LinuxAuthConnector" "2024-01-01T00:00:00"
      { timestamp := some "2024-01-01T03:00:00", user_name := some "alice",
        event_type := some "login", source_ip := some "203.0.113.45",
        success := some true }
  exact ⟨h1 rfl, h2 rfl, h3 rfl, h4 rfl, g2 rfl, g1 rfl, g5⟩

/-- C5: a raw record that matches none of a connector's recognized patterns
makes `parse_event` return `None`, for both the auth-log and the web-log
connector; in the embedding both parsers are total functions, mirroring the
catch-all exception handler that makes malformed input non-fatal. -/
theorem parse_event_no_match_none
    (searchSshLogin searchSshFailed searchSudo :
      String → Option (String × String × String))
    (parseTsL : String → String) (nowL : String)
    (matchLogPattern : String → Option WebLogMatch)
    (searchUserPatterns : String → Option String)
    (parseTsW : String → String) (nowW : String) (raw_event : String)
    (h1 : searchSshLogin raw_event = none)
    (h2 : searchSshFailed raw_event = none)
    (h3 : searchSudo raw_event = none)
    (h4 : matchLogPattern raw_event = none) :
    linux_parse_event searchSshLogin searchSshFailed searchSudo parseTsL nowL
      raw_event = none ∧
    web_parse_event matchLogPattern searchUserPatterns parseTsW nowW
      raw_event = none := by
  constructor
  · simp only [linux_parse_event, h1, h2, h3]
  · simp only [web_parse_event, h4]

/-- C5 witness: a record no pattern matches. -/
theorem parse_event_no_match_none_witness :
    linux_parse_event (fun _ => none) (fun _ => none) (fun _ => none)
      (fun s => s) "now" "garbage" = none ∧
    web_parse_event (fun _ => none) (fun _ => none)
      (fun s => s) "now" "garbage" = none :=
  parse_event_no_match_none (fun _ => none) (fun _ => none) (fun _ => none)
    (fun s => s) "now" (fun _ => none) (fun _ => none) (fun s => s) "now"
    "garbage" rfl rfl rfl rfl

/-- C7: an event whose user has no profile yields exactly the single
"Unknown user" anomaly, risk score `1 * 0.4 = 0.4`, alert level MEDIUM and
`is_suspicious = true`, whatever the event's other fields. -/
theorem unknown_user_single_anomaly
    (parseHour : String → Except String Nat)
    (user_profiles : List (Int × UserProfile)) (now : String) (event : Event)
    (h : event.user_id.bind (fun uid => List.lookup uid user_profiles) = none)
    (r : AnalysisResult)
    (hr : r = analyze_event parseHour user_profiles now event) :
    r.anomalies = ["Unknown user"] ∧ r.overall_risk_score = 2/5 ∧
    r.alert_level = "MEDIUM" ∧ r.is_suspicious = true := by
  subst hr
  have hdet : detect_rule_based_anomalies parseHour user_profiles event =
      ["Unknown user"] := by
    cases hu : event.user_id with
    | none => simp [detect_rule_based_anomalies, hu]
    | some uid =>
      have hl : List.lookup uid user_profiles = none := by
        simpa [hu] using h
      simp [detect_rule_based_anomalies, hu, hl]
  refine ⟨?_, ?_, ?_, ?_⟩ <;>
    norm_num [analyze_event, hdet, min_def]

/-- C7 witness: an event with no `user_id` against an empty profile table. -/
theorem unknown_user_single_anomaly_witness :
    (analyze_event (fun _ => Except.error "x") [] "now" {}).anomalies =
      ["Unknown user"] ∧
    (analyze_event (fun _ => Except.error "x") [] "now" {}).overall_risk_score
      = 2/5 ∧
    (analyze_event (fun _ => Except.error "x") [] "now" {}).alert_level =
      "MEDIUM" ∧
    (analyze_event (fun _ => Except.error "x") [] "now" {}).is_suspicious =
      true :=
  unknown_user_single_anomaly (fun _ => Except.error "x") [] "now" {} rfl
    _ rfl

/-- Folding the `pandas.unique` accumulator preserves membership. -/
lemma mem_foldl_pdUnique {α : Type} [DecidableEq α] (l : List α)
    (acc : List α) (x : α) (h : x ∈ acc ∨ x ∈ l) :
    x ∈ l.foldl (fun acc x => if x ∈ acc then acc else acc ++ [x]) acc := by
  induction l generalizing acc with
  | nil => simpa using h
  | cons a l ih =>
    simp only [List.foldl_cons]
    apply ih
    rcases h with h | h
    · left
      split
      · exact h
      · exact List.mem_append_left _ h
    · rcases List.mem_cons.mp h with rfl | h
      · left
        split
        · assumption
        · simp
      · right
        exact h

/-- Every element of a list appears in its `pandas.unique`. -/
lemma mem_pdUnique {α : Type} [DecidableEq α] {l : List α} {x : α}
    (h : x ∈ l) : x ∈ pdUnique l :=
  mem_foldl_pdUnique l [] x (Or.inr h)

/-- Looking up a key in a key-indexed map of pairs recovers its value. -/
lemma lookup_map_self {α β : Type} [BEq α] [LawfulBEq α] (l : List α)
    (f : α → β) (x : α) (h : x ∈ l) :
    List.lookup x (l.map (fun u => (u, f u))) = some (f x) := by
  induction l with
  | nil => simp at h
  | cons a l ih =>
    by_cases hx : x = a
    · subst hx
      simp [List.lookup]
    · have hxa : (x == a) = false := beq_eq_false_iff_ne.mpr hx
      have hmem : x ∈ l := by
        rcases List.mem_cons.mp h with h' | h'
        · exact absurd h' hx
        · exact h'
      simpa [List.lookup, hxa] using ih hmem

/-- C8: every user appearing in the training batch gets a profile; a user
with no login rows gets the default login-hour baseline 9/17/13, and a user
with no file-access rows gets zero file averages — never an undefined or
missing baseline. -/
theorem create_user_profiles_defaults (df : DataFrame) (uid : Int)
    (hmem : uid ∈ df.rows.map (fun r => r.user_id)) :
    ∃ prof : UserProfile,
      List.lookup uid (create_user_profiles df) = some prof ∧
      ((df.rows.filter (fun r => r.user_id = uid)).filter
          (fun r => r.event_type = "login") = [] →
        prof.normal_login_hours = ⟨9, 17, 13⟩) ∧
      ((df.rows.filter (fun r => r.user_id = uid)).filter
          (fun r => r.event_type = "file_access") = [] →
        prof.avg_files_per_day = 0 ∧ prof.typical_file_sizes = ⟨0, 0⟩) := by
  refine ⟨build_profile df uid, ?_, ?_, ?_⟩
  · exact lookup_map_self _ (build_profile df) uid (mem_pdUnique hmem)
  · intro h0
    simp [build_profile, h0]
  · intro h0
    simp [build_profile, h0]

/-- C8 witness: a batch holding a single logout row for user 7 (so user 7
appears, but has neither login nor file-access events). -/
theorem create_user_profiles_defaults_witness :
    ∃ prof : UserProfile,
      List.lookup 7 (create_user_profiles
        { rows := [⟨7, "gina", 11, "logout", "United States", "Boston", 0⟩] })
        = some prof ∧
      prof.normal_login_hours = ⟨9, 17, 13⟩ ∧
      prof.avg_files_per_day = 0 ∧ prof.typical_file_sizes = ⟨0, 0⟩ := by
  obtain ⟨prof, h1, h2, h3⟩ :=
    create_user_profiles_defaults
      { rows := [⟨7, "gina", 11, "logout", "United States", "Boston", 0⟩] } 7
      (by decide)
  exact ⟨prof, h1, h2 (by decide), h3 (by decide)⟩

/-- C9: a login event at hour 3 from country "Russia" with source IP
"203.0.113.45", for a profiled user with normal login hours 9-17, no
history of that country, and whose unusual-location rule does not fire,
produces exactly the very-unusual-time, suspicious-country and external-IP
violations; the risk score is `min(1.0, 3*0.4) = 1.0`, the alert level HIGH
and `is_suspicious` true. -/
theorem login_scenario_hour3_russia
    (parseHour : String → Except String Nat)
    (user_profiles : List (Int × UserProfile)) (now ts : String)
    (uid : Int) (prof : UserProfile)
    (hlookup : List.lookup uid user_profiles = some prof)
    (hmin : prof.normal_login_hours.min = 9)
    (hmax : prof.normal_login_hours.max = 17)
    (hhist : "Russia" ∉ prof.normal_countries)
    (hts : parseHour ts = Except.ok 3)
    (event : Event)
    (huid : event.user_id = some uid)
    (hty : event.event_type = some "login")
    (htime : event.timestamp = some ts)
    (hcountry : event.country = some "Russia")
    (hip : event.source_ip = some "203.0.113.45")
    (hloc : event.location.getD "Unknown" ∈ prof.normal_locations ∨
      event.location.getD "Unknown" ∈ trusted_locations)
    (r : AnalysisResult)
    (hr : r = analyze_event parseHour user_profiles now event) :
    r.anomalies = ["Very unusual login time: 3:00",
      "Login from suspicious country: Russia",
      "Login from external IP: 203.0.113.45"] ∧
    r.overall_risk_score = 1 ∧ r.alert_level = "HIGH" ∧
    r.is_suspicious = true := by
  subst hr
  have hipfalse : strStartsWith "203.0.113.45" "192.168.1." = false := by
    decide
  have hdet : detect_rule_based_anomalies parseHour user_profiles event =
      ["Very unusual login time: 3:00",
        "Login from suspicious country: Russia",
        "Login from external IP: 203.0.113.45"] := by
    rcases hloc with h | h <;>
      simp [detect_rule_based_anomalies, huid, hlookup, hty, htime, hts,
        hcountry, hip, hipfalse, suspicious_countries, h] <;>
      decide
  refine ⟨?_, ?_, ?_, ?_⟩ <;>
    norm_num [analyze_event, hdet, min_def]

/-- C9 witness: the scenario at a fully concrete profile and event. -/
theorem login_scenario_hour3_russia_witness :
    (analyze_event (fun _ => Except.ok 3)
        [(1, ⟨1, "alice", ⟨9, 17, 13⟩, ["United States"], ["Boston"], 0,
          ⟨0, 0⟩⟩)] "now"
        { user_id := some 1, event_type := some "login",
          timestamp := some "2024-01-01T03:00:00",
          country := some "Russia", source_ip := some "203.0.113.45",
          location := some "Boston" }).anomalies =
      ["Very unusual login time: 3:00",
        "Login from suspicious country: Russia",
        "Login from external IP: 203.0.113.45"] ∧
    (analyze_event (fun _ => Except.ok 3)
        [(1, ⟨1, "alice", ⟨9, 17, 13⟩, ["United States"], ["Boston"], 0,
          ⟨0, 0⟩⟩)] "now"
        { user_id := some 1, event_type := some "login",
          timestamp := some "2024-01-01T03:00:00",
          country := some "Russia", source_ip := some "203.0.113.45",
          location := some "Boston" }).overall_risk_score = 1 ∧
    (analyze_event (fun _ => Except.ok 3)
        [(1, ⟨1, "alice", ⟨9, 17, 13⟩, ["United States"], ["Boston"], 0,
          ⟨0, 0⟩⟩)] "now"
        { user_id := some 1, event_type := some "login",
          timestamp := some "2024-01-01T03:00:00",
          country := some "Russia", source_ip := some "203.0.113.45",
          location := some "Boston" }).alert_level = "HIGH" ∧
    (analyze_event (fun _ => Except.ok 3)
        [(1, ⟨1, "alice", ⟨9, 17, 13⟩, ["United States"], ["Boston"], 0,
          ⟨0, 0⟩⟩)] "now"
        { user_id := some 1, event_type := some "login",
          timestamp := some "2024-01-01T03:00:00",
          country := some "Russia", source_ip := some "203.0.113.45",
          location := some "Boston" }).is_suspicious = true :=
  login_scenario_hour3_russia (fun _ => Except.ok 3)
    [(1, ⟨1, "alice", ⟨9, 17, 13⟩, ["United States"], ["Boston"], 0,
      ⟨0, 0⟩⟩)] "now" "2024-01-01T03:00:00" 1
    ⟨1, "alice", ⟨9, 17, 13⟩, ["United States"], ["Boston"], 0, ⟨0, 0⟩⟩
    (by decide) rfl rfl (by decide) rfl
    { user_id := some 1, event_type := some "login",
      timestamp := some "2024-01-01T03:00:00",
      country := some "Russia", source_ip := some "203.0.113.45",
      location := some "Boston" }
    rfl rfl rfl rfl rfl (Or.inl (by decide)) _ rfl

/-- C10 counterexample: a login event of a profiled user with country
"Unknown" but an unparseable timestamp.  The timestamp-error anomaly is the
only one produced; the suspicious-country rule does not contribute, refuting
the claim for every such login event. -/
theorem suspicious_country_unknown_counterexample :
    detect_rule_based_anomalies (fun _ => Except.error "could not parse")
        [(1, ⟨1, "alice", ⟨9, 17, 13⟩, ["United States"], ["Boston"], 0,
          ⟨0, 0⟩⟩)]
        { user_id := some 1, event_type := some "login",
          timestamp := some "garbage", country := some "Unknown" } =
      ["Error parsing timestamp: could not parse"] ∧
    "Login from suspicious country: Unknown" ∉
      detect_rule_based_anomalies (fun _ => Except.error "could not parse")
        [(1, ⟨1, "alice", ⟨9, 17, 13⟩, ["United States"], ["Boston"], 0,
          ⟨0, 0⟩⟩)]
        { user_id := some 1, event_type := some "login",
          timestamp := some "garbage", country := some "Unknown" } := by
  decide

/-- C10 amended: for every login event of a profiled user whose timestamp
parses successfully, a country field equal to "Unknown" — including the
default assigned when the source supplies no country — fires the
suspicious-country rule, because "Unknown" belongs to the fixed
suspicious-country list. -/
theorem suspicious_country_unknown_fires
    (parseHour : String → Except String Nat)
    (user_profiles : List (Int × UserProfile))
    (uid : Int) (prof : UserProfile) (event : Event) (ts : String)
    (hour : Nat)
    (huid : event.user_id = some uid)
    (hlookup : List.lookup uid user_profiles = some prof)
    (hty : event.event_type = some "login")
    (htime : event.timestamp = some ts)
    (hts : parseHour ts = Except.ok hour)
    (hc : event.country.getD "Unknown" = "Unknown") :
    "Unknown" ∈ suspicious_countries ∧
    "Login from suspicious country: Unknown" ∈
      detect_rule_based_anomalies parseHour user_profiles event := by
  refine ⟨by decide, ?_⟩
  simp [detect_rule_based_anomalies, huid, hlookup, hty, htime, hts, hc,
    suspicious_countries]

/-- C10 amended witness: a login event with no country key at all (the
"Unknown" default) and a parseable timestamp. -/
theorem suspicious_country_unknown_fires_witness :
    "Unknown" ∈ suspicious_countries ∧
    "Login from suspicious country: Unknown" ∈
      detect_rule_based_anomalies (fun _ => Except.ok 10)
        [(1, ⟨1, "alice", ⟨9, 17, 13⟩, ["United States"], ["Boston"], 0,
          ⟨0, 0⟩⟩)]
        { user_id := some 1, event_type := some "login",
          timestamp := some "2024-01-01T10:00:00" } :=
  suspicious_country_unknown_fires (fun _ => Except.ok 10)
    [(1, ⟨1, "alice", ⟨9, 17, 13⟩, ["United States"], ["Boston"], 0,
      ⟨0, 0⟩⟩)] 1
    ⟨1, "alice", ⟨9, 17, 13⟩, ["United States"], ["Boston"], 0, ⟨0, 0⟩⟩
    { user_id := some 1, event_type := some "login",
      timestamp := some "2024-01-01T10:00:00" }
    "2024-01-01T10:00:00" 10 rfl (by decide) rfl rfl rfl rfl
